import Mathlib

/-!
Shallow embedding of the flaky-test-detector execution engine
(`worker.py`, `config.py`) and proofs about its contract.

External effects (the filesystem probed by `detect_framework`, the
subprocess layer driven by `run_test_once`, the thread pool's completion
order, and `random.randint` draws) are modelled as explicit oracle
parameters; the control flow and data transformations are translated
directly from the source.
-/

namespace FlakyDetector

/-- The framework tags of `worker.py` (`FrameworkType` literal). -/
inductive FrameworkType where
  | python
  | go
  | typescriptJest
  | typescriptVitest
  | javascriptMocha
  | unknown
deriving DecidableEq, Repr

/-- The parts of a parsed `package.json` that `detect_framework` reads:
the key sets of `dependencies` and `devDependencies`. -/
structure PackageJson where
  dependencies : List String
  devDependencies : List String
deriving DecidableEq, Repr

/-- State of `package.json` in the working directory: missing, present but
not parseable as JSON (`json.load` raises), or parsed. -/
inductive ManifestState where
  | absent
  | unparseable
  | parsed (pkg : PackageJson)
deriving DecidableEq, Repr

/-- The filesystem facts probed by `detect_framework` (read-only). -/
structure DirState where
  goMod : Bool
  packageJson : ManifestState
  requirementsTxt : Bool
  pyprojectToml : Bool
  setupPy : Bool
deriving DecidableEq, Repr

/-- `worker.detect_framework`: go.mod first; then a parseable package.json
with jest/vitest/mocha among merged dependencies and devDependencies
(an unparseable manifest falls through, `except Exception: pass`); then
the Python markers; else unknown. -/
def detect_framework (d : DirState) : FrameworkType :=
  if d.goMod then .go
  else
    let jsMatch : Option FrameworkType :=
      match d.packageJson with
      | .parsed pkg =>
          let deps := pkg.dependencies ++ pkg.devDependencies
          if "jest" ∈ deps then some .typescriptJest
          else if "vitest" ∈ deps then some .typescriptVitest
          else if "mocha" ∈ deps then some .javascriptMocha
          else none
      | _ => none
    match jsMatch with
    | some fw => fw
    | none =>
        if d.requirementsTxt || d.pyprojectToml || d.setupPy then .python
        else .unknown

/-- `worker.get_seed_env_var`: the one-entry dict of seed variable to seed
value for each framework; unknown falls back to TEST_SEED. -/
def get_seed_env_var (framework : FrameworkType) (seed_value : Nat) :
    List (String × String) :=
  match framework with
  | .python => [("TEST_SEED", toString seed_value)]
  | .go => [("GO_TEST_SEED", toString seed_value)]
  | .typescriptJest => [("JEST_SEED", toString seed_value)]
  | .typescriptVitest => [("VITE_TEST_SEED", toString seed_value)]
  | .javascriptMocha => [("MOCHA_SEED", toString seed_value)]
  | .unknown => [("TEST_SEED", toString seed_value)]

/-- The seed environment variable name used for each framework. -/
def seedVarName (framework : FrameworkType) : String :=
  match framework with
  | .python => "TEST_SEED"
  | .go => "GO_TEST_SEED"
  | .typescriptJest => "JEST_SEED"
  | .typescriptVitest => "VITE_TEST_SEED"
  | .javascriptMocha => "MOCHA_SEED"
  | .unknown => "TEST_SEED"

/-- The result dict built by `run_test_once` / the handler. -/
structure AttemptResult where
  attempt : Nat
  exit_code : Option Int
  stdout : String
  stderr : String
  passed : Bool
deriving DecidableEq, Repr

/-- Outcome of the `subprocess.run` call inside `run_test_once`: normal
exit, `TimeoutExpired`, or any other exception (oracle for the process
layer). -/
inductive ExecOutcome where
  | exited (code : Int) (out err : String)
  | timedOut
  | raised (msg : String)
deriving DecidableEq, Repr

/-- `worker.run_test_once`: converts every subprocess outcome into an
AttemptResult; it never propagates an exception (totality of this
function is the embedding of that fact). -/
def run_test_once (outcome : ExecOutcome) (cmd_list : List String)
    (env_overrides : List (String × String)) (attempt : Nat) : AttemptResult :=
  match outcome with
  | .exited code out err =>
      { attempt := attempt, exit_code := some code, stdout := out,
        stderr := err, passed := code == 0 }
  | .timedOut =>
      { attempt := attempt, exit_code := none, stdout := "",
        stderr := "TIMEOUT", passed := false }
  | .raised msg =>
      { attempt := attempt, exit_code := none, stdout := "",
        stderr := "ERROR: " ++ msg, passed := false }

/-- Outcome of `future.result()` for one submitted attempt: either the
`run_test_once` call completed (with the given subprocess outcome), or the
result call itself raised (a scheduling-layer fault). -/
inductive FutureOutcome where
  | completed (o : ExecOutcome)
  | raised (msg : String)

/-- The env_overrides dict built in the handler's submission loop for
attempt `i`: the framework's seed variable, then `ATTEMPT` set to `i`. -/
def envOverridesFor (framework : FrameworkType) (seed : Nat) (i : Nat) :
    List (String × String) :=
  get_seed_env_var framework seed ++ [("ATTEMPT", toString i)]

/-- The handler's `as_completed` collection loop. `order` is the sequence
of attempt indices in completion order; `done` is `len(results)` so far.
A completed future appends its AttemptResult; a raised one appends the
synthesized record whose `attempt` field is `len(results)` at that
moment. -/
def collectResults (fut : Nat → FutureOutcome) (cmd_list : List String)
    (env_of : Nat → List (String × String)) :
    List Nat → Nat → List AttemptResult
  | [], _ => []
  | i :: rest, done =>
      (match fut i with
       | .completed o => run_test_once o cmd_list (env_of i) i
       | .raised msg =>
           { attempt := done, exit_code := none, stdout := "",
             stderr := "WORKER ERROR: " ++ msg, passed := false }) ::
      collectResults fut cmd_list env_of rest (done + 1)

/-- Ordering of results by attempt index, the key of the handler's
`sorted(results, key=lambda r: r.attempt)`. -/
def resultLe (a b : AttemptResult) : Prop := a.attempt ≤ b.attempt

/-- Strict version of `resultLe`, used to reason about sorted lists with
pairwise-distinct attempt indices. -/
def resultLt (a b : AttemptResult) : Prop := a.attempt < b.attempt

instance : DecidableRel resultLe := fun a b => Nat.decLe a.attempt b.attempt

instance : DecidableRel resultLt := fun a b => Nat.decLt a.attempt b.attempt

instance : IsTotal AttemptResult resultLe := ⟨fun a b => Nat.le_total a.attempt b.attempt⟩

instance : IsTrans AttemptResult resultLe := ⟨fun _ _ _ => Nat.le_trans⟩

instance : IsAntisymm AttemptResult resultLt :=
  ⟨fun _ _ h h' => absurd h' (Nat.lt_asymm h)⟩

instance : IsTrans AttemptResult resultLt := ⟨fun _ _ _ => Nat.lt_trans⟩

/-- Python's `sorted` is a stable sort; any stable sort computes the same
list, so it is embedded as insertion sort on the attempt key. -/
def sortResults (results : List AttemptResult) : List AttemptResult :=
  List.insertionSort resultLe results

/-- Round-half-to-even on a rational, the rounding rule of Python's
built-in `round`. -/
def roundHalfEven (q : ℚ) : ℤ :=
  let n := q.floor
  let frac := q - (n : ℚ)
  if frac < 1 / 2 then n
  else if 1 / 2 < frac then n + 1
  else if n % 2 = 0 then n else n + 1

/-- Python's `round(q, 3)`. -/
def pythonRound3 (q : ℚ) : ℚ := (roundHalfEven (q * 1000) : ℚ) / 1000

/-- The summary dict returned by the handler. -/
structure RunSummary where
  total_runs : Int
  parallelism : Int
  framework : FrameworkType
  failures : Nat
  repro_rate : ℚ
  results : List AttemptResult
deriving DecidableEq, Repr

/-- The handler's aggregation step: count results with `passed` false,
compute `round(len(failures) / runs, 3)`, sort results by attempt. -/
def mkSummary (runs parallelism : Int) (framework : FrameworkType)
    (results : List AttemptResult) : RunSummary :=
  let failures := results.filter (fun r => !r.passed)
  { total_runs := runs, parallelism := parallelism, framework := framework,
    failures := failures.length,
    repro_rate := pythonRound3 ((failures.length : ℚ) / (runs : ℚ)),
    results := sortResults results }

/-- The fields the handler reads from `job["input"]`. A `none` field is a
missing key (`inp["repo"]` raises `KeyError`; `runs`, `parallelism` and
`framework` are read with `.get` and have defaults). -/
structure RunRequest where
  repo : Option String
  test_command : Option String
  runs : Option Int
  parallelism : Option Int
  framework : Option String
deriving DecidableEq, Repr

/-- The exceptions the handler can raise before or instead of returning a
summary. -/
inductive HandlerError where
  | keyError (key : String)
  | valueError (msg : String)
  | runtimeError (msg : String)
deriving DecidableEq, Repr

/-- Python's `str.startswith`: the pattern's characters are a prefix of
the string's characters. -/
def strStartsWith (s pat : String) : Bool := pat.data.isPrefixOf s.data

/-- The request fields after key lookup, defaulting and validation. -/
structure ParsedRequest where
  repo : String
  test_command : String
  runs : Int
  parallelism : Int
  framework_override : Option String
deriving DecidableEq, Repr

/-- The handler's input reading and validation section (lines 147-166 of
`worker.py`), in source order: `KeyError` on missing `repo` or
`test_command`, then the five `ValueError` checks. -/
def validateRequest (job : RunRequest) : Except HandlerError ParsedRequest :=
  match job.repo with
  | none => .error (.keyError "repo")
  | some repo =>
    match job.test_command with
    | none => .error (.keyError "test_command")
    | some test_command =>
      let runs := job.runs.getD 10
      let parallelism := job.parallelism.getD 4
      if repo = "" then .error (.valueError "Repository URL is required")
      else if test_command = "" then .error (.valueError "Test command is required")
      else if runs < 1 ∨ runs > 1000 then
        .error (.valueError "Runs must be between 1 and 1000")
      else if parallelism < 1 ∨ parallelism > 50 then
        .error (.valueError "Parallelism must be between 1 and 50")
      else if ¬(strStartsWith repo "https://" ∨ strStartsWith repo "git@") then
        .error (.valueError ("Invalid repository URL: " ++ repo))
      else
        .ok { repo := repo, test_command := test_command, runs := runs,
              parallelism := parallelism, framework_override := job.framework }

/-- The five framework tags accepted as explicit overrides (line 195). -/
def knownFrameworkTags : List String :=
  ["python", "go", "typescript-jest", "typescript-vitest", "javascript-mocha"]

/-- Mapping of an override string to a framework: one of the five known
tags is used as-is, anything else becomes `unknown` (lines 195-198). -/
def frameworkOfTag (s : String) : FrameworkType :=
  if s = "python" then .python
  else if s = "go" then .go
  else if s = "typescript-jest" then .typescriptJest
  else if s = "typescript-vitest" then .typescriptVitest
  else if s = "javascript-mocha" then .javascriptMocha
  else .unknown

/-- Python truthiness of the optional `framework` field: `None` and the
empty string are falsy (`if framework_override:`). -/
def overrideTruthy : Option String → Bool
  | none => false
  | some s => s != ""

/-- Lines 192-202 of the handler: a truthy override bypasses detection
(unknown tags become `unknown`), otherwise `detect_framework` runs on the
cloned working directory. -/
def resolveFramework (framework_override : Option String) (d : DirState) :
    FrameworkType :=
  if overrideTruthy framework_override then
    frameworkOfTag (framework_override.getD "")
  else detect_framework d

/-- Observable side effects of the handler before and during execution. -/
inductive Effect where
  | mkdtemp
  | spawnProc (cmd : List String)
  | chdir
deriving DecidableEq, Repr

/-- Oracle for everything outside the handler's own logic: the cloned
directory's contents, whether `git clone` succeeds, `shlex.split`, the
`random.randint` draw per attempt, each attempt's `future.result()`
outcome, and the `as_completed` completion order. -/
structure World where
  dir : DirState
  cloneOk : Bool
  tokenize : String → List String
  seeds : Nat → Nat
  fut : Nat → FutureOutcome
  order : List Nat

/-- `worker.handler`: validation first (raising before any side effect),
then mkdtemp, clone, chdir, framework resolution, tokenization, the
thread-pool fan-out and `as_completed` collection, and aggregation.
Returns the effect trace together with the outcome. -/
def handler (job : RunRequest) (w : World) :
    List Effect × Except HandlerError RunSummary :=
  match validateRequest job with
  | .error e => ([], .error e)
  | .ok p =>
      let setupEffects := [Effect.mkdtemp, Effect.spawnProc ["git", "clone", p.repo]]
      if w.cloneOk then
        let framework := resolveFramework p.framework_override w.dir
        let cmd := w.tokenize p.test_command
        let results := collectResults w.fut cmd
          (fun i => envOverridesFor framework (w.seeds i) i) w.order 0
        (setupEffects ++ [Effect.chdir] ++ w.order.map (fun _ => Effect.spawnProc cmd),
         .ok (mkSummary p.runs p.parallelism framework results))
      else
        (setupEffects, .error (.runtimeError "Failed to clone repository"))

/-- The `severity_thresholds` mapping of `config.py`. -/
structure SeverityThresholds where
  critical : ℚ
  high : ℚ
  medium : ℚ
  low : ℚ
deriving DecidableEq, Repr

/-- `Config.get_severity`: top-down `>=` checks critical, high, medium,
low; first match wins, else NONE. Returns (severity_level, emoji). -/
def get_severity (t : SeverityThresholds) (repro_rate : ℚ) : String × String :=
  if repro_rate ≥ t.critical then ("CRITICAL", "🔴")
  else if repro_rate ≥ t.high then ("HIGH", "🟠")
  else if repro_rate ≥ t.medium then ("MEDIUM", "🟡")
  else if repro_rate ≥ t.low then ("LOW", "🟢")
  else ("NONE", "✅")

/-- Position of a severity level name in the tier order
NONE < LOW < MEDIUM < HIGH < CRITICAL. -/
def severityRank : String → Nat
  | "CRITICAL" => 4
  | "HIGH" => 3
  | "MEDIUM" => 2
  | "LOW" => 1
  | _ => 0

/-- The four classified tiers with their thresholds, highest first. -/
def tierThresholds (t : SeverityThresholds) : List (String × ℚ) :=
  [("CRITICAL", t.critical), ("HIGH", t.high), ("MEDIUM", t.medium), ("LOW", t.low)]

/-- Modelled from the spec: "a reproduction rate is classified into the
highest tier whose threshold it meets or exceeds, else NONE" — the
reference classifier the source's if-chain is compared against. -/
def specSeverityHighest (t : SeverityThresholds) (r : ℚ) : String :=
  ((tierThresholds t).filter (fun p => decide (r ≥ p.2))).foldl
    (fun best p => if severityRank best < severityRank p.1 then p.1 else best) "NONE"

/-- A request falling in one of the five invalid classes of the spec:
missing/empty repository, missing/empty test command, runs outside
[1,1000], parallelism outside [1,50], or a repository identifier without
a recognized scheme. -/
def requestInvalid (job : RunRequest) : Prop :=
  job.repo = none ∨ job.repo = some "" ∨
  job.test_command = none ∨ job.test_command = some "" ∨
  job.runs.getD 10 < 1 ∨ job.runs.getD 10 > 1000 ∨
  job.parallelism.getD 4 < 1 ∨ job.parallelism.getD 4 > 50 ∨
  (∃ repo, job.repo = some repo ∧
    ¬(strStartsWith repo "https://" ∨ strStartsWith repo "git@"))

/-- No JS test runner is declared by a parsed package.json (vacuous when
the manifest is absent or unparseable). -/
def noJsMatch (d : DirState) : Prop :=
  ∀ pkg, d.packageJson = .parsed pkg →
    ("jest" ∉ pkg.dependencies ++ pkg.devDependencies ∧
     "vitest" ∉ pkg.dependencies ++ pkg.devDependencies ∧
     "mocha" ∉ pkg.dependencies ++ pkg.devDependencies)

/-- A working directory containing only go.mod. -/
def goOnlyDir : DirState :=
  { goMod := true, packageJson := .absent, requirementsTxt := false,
    pyprojectToml := false, setupPy := false }

/-- A working directory with no marker files at all. -/
def emptyDir : DirState :=
  { goMod := false, packageJson := .absent, requirementsTxt := false,
    pyprojectToml := false, setupPy := false }

/-- A scheduling oracle where attempt 0's `future.result()` raises and
every other attempt completes with exit code 0. -/
def futCrash0 : Nat → FutureOutcome
  | 0 => .raised "boom"
  | _ => .completed (.exited 0 "" "")

/-- A valid request with runs = 2, parallelism = 1. -/
def validJob : RunRequest :=
  { repo := some "https://github.com/x/y", test_command := some "pytest",
    runs := some 2, parallelism := some 1, framework := some "python" }

/-- A world where the clone succeeds, attempt 0's result call raises and
attempt 1 completes first (completion order [1, 0]). -/
def crashWorld : World :=
  { dir := emptyDir, cloneOk := true, tokenize := fun s => [s],
    seeds := fun _ => 1, fut := futCrash0, order := [1, 0] }

/-- Two distinct failing results sharing attempt index 0. -/
def dupResA : AttemptResult :=
  { attempt := 0, exit_code := none, stdout := "", stderr := "A", passed := false }

/-- Second result with the same attempt index as `dupResA` but different
stderr. -/
def dupResB : AttemptResult :=
  { attempt := 0, exit_code := none, stdout := "", stderr := "B", passed := false }

/-- Representative invalid request: repo key missing. -/
def reqNoRepo : RunRequest :=
  { repo := none, test_command := some "t", runs := none,
    parallelism := none, framework := none }

/-- Representative invalid request: empty repository. -/
def reqEmptyRepo : RunRequest :=
  { repo := some "", test_command := some "t", runs := none,
    parallelism := none, framework := none }

/-- Representative invalid request: empty test command. -/
def reqEmptyCmd : RunRequest :=
  { repo := some "https://r", test_command := some "", runs := none,
    parallelism := none, framework := none }

/-- Representative invalid request: runs outside [1, 1000]. -/
def reqBadRuns : RunRequest :=
  { repo := some "https://r", test_command := some "t", runs := some 0,
    parallelism := none, framework := none }

/-- Representative invalid request: parallelism outside [1, 50]. -/
def reqBadPar : RunRequest :=
  { repo := some "https://r", test_command := some "t", runs := none,
    parallelism := some 51, framework := none }

/-- Representative invalid request: unrecognized repository scheme. -/
def reqBadScheme : RunRequest :=
  { repo := some "ftp://r", test_command := some "t", runs := none,
    parallelism := none, framework := none }

/- ------------------------------------------------------------------ -/
/- Helper lemmas                                                       -/
/- ------------------------------------------------------------------ -/

theorem get_seed_env_var_eq (framework : FrameworkType) (seed : Nat) :
    get_seed_env_var framework seed = [(seedVarName framework, toString seed)] := by
  cases framework <;> rfl

theorem collectResults_length (fut : Nat → FutureOutcome) (cmd_list : List String)
    (env_of : Nat → List (String × String)) :
    ∀ (order : List Nat) (done : Nat),
      (collectResults fut cmd_list env_of order done).length = order.length
  | [], _ => rfl
  | i :: rest, done => by
      simp only [collectResults, List.length_cons,
        collectResults_length fut cmd_list env_of rest (done + 1)]

theorem collectResults_getElem_raised (fut : Nat → FutureOutcome) (cmd_list : List String)
    (env_of : Nat → List (String × String)) :
    ∀ (order : List Nat) (done k i : Nat) (msg : String),
      order[k]? = some i → fut i = .raised msg →
      (collectResults fut cmd_list env_of order done)[k]? =
        some { attempt := done + k, exit_code := none, stdout := "",
               stderr := "WORKER ERROR: " ++ msg, passed := false }
  | [], _, k, _, _, ho, _ => by simp at ho
  | j :: rest, done, 0, i, msg, ho, hf => by
      simp only [List.getElem?_cons_zero, Option.some.injEq] at ho
      subst ho
      simp [collectResults, hf]
  | j :: rest, done, k + 1, i, msg, ho, hf => by
      simp only [List.getElem?_cons_succ] at ho
      have ih := collectResults_getElem_raised fut cmd_list env_of rest (done + 1) k i msg ho hf
      simp only [collectResults, List.getElem?_cons_succ, ih]
      congr 2
      omega

theorem sorted_lt_of_sorted_le_nodup {l : List AttemptResult}
    (hs : List.Sorted resultLe l) (hn : (l.map (fun r => r.attempt)).Nodup) :
    List.Sorted resultLt l := by
  have hne : l.Pairwise (fun a b => a.attempt ≠ b.attempt) := by
    rw [List.Nodup, List.pairwise_map] at hn
    exact hn
  exact (hs.and hne).imp (fun h => Nat.lt_of_le_of_ne h.1 h.2)

theorem sortResults_eq_of_perm (l l' : List AttemptResult) (hp : l.Perm l')
    (hn : (l.map (fun r => r.attempt)).Nodup) :
    sortResults l = sortResults l' := by
  have hps : (sortResults l).Perm (sortResults l') :=
    (List.perm_insertionSort resultLe l).trans
      (hp.trans (List.perm_insertionSort resultLe l').symm)
  have hs1 : List.Sorted resultLe (sortResults l) := List.sorted_insertionSort resultLe l
  have hs2 : List.Sorted resultLe (sortResults l') := List.sorted_insertionSort resultLe l'
  have hn1 : ((sortResults l).map (fun r => r.attempt)).Nodup :=
    (((List.perm_insertionSort resultLe l).map (fun r => r.attempt)).nodup_iff).mpr hn
  have hn2 : ((sortResults l').map (fun r => r.attempt)).Nodup :=
    ((hps.map (fun r => r.attempt)).nodup_iff).mp hn1
  exact List.eq_of_perm_of_sorted hps
    (sorted_lt_of_sorted_le_nodup hs1 hn1) (sorted_lt_of_sorted_le_nodup hs2 hn2)

/- ------------------------------------------------------------------ -/
/- Claim theorems                                                      -/
/- ------------------------------------------------------------------ -/

/-- C2: `run_test_once` never raises for any command, environment and
attempt index (totality over every `ExecOutcome` embeds this): a process
exiting within the timeout yields a result carrying its exit code with
`passed` true iff the exit code is exactly 0; a timeout yields no exit
code, stderr "TIMEOUT" and passed false; any other execution-layer error
yields no exit code, stderr "ERROR: " followed by the message and passed
false. -/
theorem run_test_once_spec (cmd_list : List String)
    (env_overrides : List (String × String)) (attempt : Nat) :
    (∀ code out err,
        run_test_once (.exited code out err) cmd_list env_overrides attempt =
          { attempt := attempt, exit_code := some code, stdout := out,
            stderr := err, passed := code == 0 } ∧
        ((run_test_once (.exited code out err) cmd_list env_overrides attempt).passed = true ↔
          code = 0)) ∧
    run_test_once .timedOut cmd_list env_overrides attempt =
      { attempt := attempt, exit_code := none, stdout := "",
        stderr := "TIMEOUT", passed := false } ∧
    (∀ msg,
        run_test_once (.raised msg) cmd_list env_overrides attempt =
          { attempt := attempt, exit_code := none, stdout := "",
            stderr := "ERROR: " ++ msg, passed := false }) := by
  refine ⟨fun code out err => ⟨rfl, ?_⟩, rfl, fun msg => rfl⟩
  simp [run_test_once]

/-- C3: for every collected result list, the summary's `failures` equals
the count of results with `passed` false, `repro_rate` equals
`round(failures / runs, 3)`, and the stored results list is sorted by
attempt index ascending (and is a permutation of the input). -/
theorem mkSummary_fields_spec (runs parallelism : Int) (framework : FrameworkType)
    (results : List AttemptResult) :
    (mkSummary runs parallelism framework results).failures =
      (results.filter (fun r => !r.passed)).length ∧
    (mkSummary runs parallelism framework results).repro_rate =
      pythonRound3 (((results.filter (fun r => !r.passed)).length : ℚ) / (runs : ℚ)) ∧
    List.Sorted resultLe (mkSummary runs parallelism framework results).results ∧
    (mkSummary runs parallelism framework results).results.Perm results :=
  ⟨rfl, rfl, List.sorted_insertionSort resultLe results,
    List.perm_insertionSort resultLe results⟩

/-- C8: the injected environment overrides for attempt `i` are exactly the
resolved framework's seed variable bound to the drawn seed (an integer in
[1, 1000000], the range of `random.randint(1, 1_000_000)`) followed by
ATTEMPT bound to `i`; for framework go the overrides contain GO_TEST_SEED
and do not contain TEST_SEED. -/
theorem envOverridesFor_spec (framework : FrameworkType) (seed i : Nat)
    (h1 : 1 ≤ seed) (h2 : seed ≤ 1000000) :
    envOverridesFor framework seed i =
      [(seedVarName framework, toString seed), ("ATTEMPT", toString i)] ∧
    (1 ≤ seed ∧ seed ≤ 1000000) ∧
    (framework = .go →
      seedVarName framework = "GO_TEST_SEED" ∧
      (envOverridesFor framework seed i).lookup "GO_TEST_SEED" = some (toString seed) ∧
      (envOverridesFor framework seed i).lookup "TEST_SEED" = none) := by
  refine ⟨?_, ⟨h1, h2⟩, ?_⟩
  · rw [envOverridesFor, get_seed_env_var_eq]
    rfl
  · rintro rfl
    refine ⟨rfl, ?_, ?_⟩ <;> simp [envOverridesFor, get_seed_env_var, List.lookup]

/-- C8 witness: the theorem applied to framework go, seed 7, attempt 0. -/
theorem envOverridesFor_spec_witness :
    envOverridesFor FrameworkType.go 7 0 =
      [(seedVarName FrameworkType.go, toString 7), ("ATTEMPT", toString 0)] :=
  (envOverridesFor_spec FrameworkType.go 7 0 (by decide) (by decide)).1

/-- C10: when `future.result()` for attempt `i` raises and that future is
the k-th to complete, the synthesized record placed at position k carries
attempt = k (the value of `len(results)` at that moment, not `i`), no exit
code, passed false and stderr "WORKER ERROR: " plus the message; the batch
still has exactly one record per submitted future; concretely, with
completion order [1, 0] and attempt 0 raising, the collected attempt
indices are [1, 1] — the synthesized index duplicates index 1. -/
theorem collect_worker_error_spec (fut : Nat → FutureOutcome) (cmd_list : List String)
    (env_of : Nat → List (String × String)) (order : List Nat) (k i : Nat) (msg : String)
    (ho : order[k]? = some i) (hf : fut i = .raised msg) :
    (collectResults fut cmd_list env_of order 0)[k]? =
      some { attempt := k, exit_code := none, stdout := "",
             stderr := "WORKER ERROR: " ++ msg, passed := false } ∧
    (collectResults fut cmd_list env_of order 0).length = order.length ∧
    (collectResults futCrash0 ["cmd"] (fun _ => []) [1, 0] 0).map (fun r => r.attempt) =
      [1, 1] := by
  refine ⟨?_, collectResults_length fut cmd_list env_of order 0, rfl⟩
  simpa using collectResults_getElem_raised fut cmd_list env_of order 0 k i msg ho hf

/-- C10 witness: the theorem applied to the crash oracle with completion
order [1, 0]: attempt 0 raises as the second completion, so the record at
position 1 has attempt index 1. -/
theorem collect_worker_error_spec_witness :
    (collectResults futCrash0 ["cmd"] (fun _ => []) [1, 0] 0)[1]? =
      some { attempt := 1, exit_code := none, stdout := "",
             stderr := "WORKER ERROR: " ++ "boom", passed := false } :=
  (collect_worker_error_spec futCrash0 ["cmd"] (fun _ => []) [1, 0] 1 0 "boom"
    (by decide) rfl).1

/-- C1 evaluated at the failing input: a valid request with runs = 2 where
attempt 0's result call raises after attempt 1 completed. The handler
returns exactly 2 results as claimed, but their attempt indices are
[1, 1], not the claimed dense set {0, 1}: the synthesized record reuses
`len(results)` as its index instead of filling slot 0. -/
theorem handler_dense_indices_failing_input :
    (handler validJob crashWorld).2.map
        (fun s => (s.results.length, s.results.map (fun r => r.attempt))) =
      .ok (2, [1, 1]) ∧
    ([1, 1] : List Nat) ≠ [0, 1] :=
  ⟨rfl, by decide⟩

/-- C7 counterexample: the override value "" is not one of the five known
tags, yet it is not treated as "unknown" and resolution is not bypassed:
`if framework_override:` is false for the empty string, so detection runs
and the result depends on the filesystem (go with go.mod present, unknown
with nothing present). -/
theorem resolveFramework_empty_override_counterexample :
    overrideTruthy (some "") = false ∧
    ("" ∈ knownFrameworkTags) = False ∧
    resolveFramework (some "") goOnlyDir = FrameworkType.go ∧
    resolveFramework (some "") goOnlyDir ≠ FrameworkType.unknown ∧
    resolveFramework (some "") goOnlyDir ≠ resolveFramework (some "") emptyDir := by
  refine ⟨rfl, by simp [knownFrameworkTags], rfl, by decide, by decide⟩

/-- C7 amended: a supplied non-empty override bypasses filesystem-based
resolution entirely (the result does not depend on the directory): one of
the five known tags is used as-is and any other non-empty value resolves
to "unknown"; a supplied empty-string override is instead treated as
absent and detection runs. -/
theorem resolveFramework_override_spec (s : String) (d d' : DirState)
    (h : s ≠ "") :
    resolveFramework (some s) d = frameworkOfTag s ∧
    resolveFramework (some s) d = resolveFramework (some s) d' ∧
    (s ∉ knownFrameworkTags → resolveFramework (some s) d = FrameworkType.unknown) ∧
    (s = "python" → resolveFramework (some s) d = FrameworkType.python) ∧
    (s = "go" → resolveFramework (some s) d = FrameworkType.go) ∧
    (s = "typescript-jest" → resolveFramework (some s) d = FrameworkType.typescriptJest) ∧
    (s = "typescript-vitest" → resolveFramework (some s) d = FrameworkType.typescriptVitest) ∧
    (s = "javascript-mocha" → resolveFramework (some s) d = FrameworkType.javascriptMocha) ∧
    (∀ d'' : DirState, resolveFramework none d'' = detect_framework d'') := by
  have ht : overrideTruthy (some s) = true := by
    simp [overrideTruthy, h]
  refine ⟨?_, ?_, ?_, ?_, ?_, ?_, ?_, ?_, fun d'' => rfl⟩
  · simp [resolveFramework, ht]
  · simp [resolveFramework, ht]
  · intro hmem
    simp only [resolveFramework, ht, if_true, Option.getD_some]
    unfold frameworkOfTag
    split_ifs with h1 h2 h3 h4 h5
    all_goals first
      | rfl
      | (exfalso; apply hmem; simp [knownFrameworkTags, h1]
         <;> simp_all [knownFrameworkTags])
  · rintro rfl; rfl
  · rintro rfl; rfl
  · rintro rfl; rfl
  · rintro rfl; rfl
  · rintro rfl; rfl

/-- C7 witness: the theorem applied to the unrecognized non-empty override
"rust" over two different directories. -/
theorem resolveFramework_override_spec_witness :
    resolveFramework (some "rust") goOnlyDir = FrameworkType.unknown :=
  (resolveFramework_override_spec "rust" goOnlyDir emptyDir
    (by decide)).2.2.1 (by decide)

/-- C9 counterexample: aggregation is not order-independent for every list
of attempt results: two distinct results sharing attempt index 0,
permuted, give different stored results lists (the stable sort preserves
input order among equal keys), hence different summaries. -/
theorem mkSummary_perm_counterexample :
    [dupResA, dupResB].Perm [dupResB, dupResA] ∧
    (mkSummary 2 1 FrameworkType.python [dupResA, dupResB]).results =
      [dupResA, dupResB] ∧
    (mkSummary 2 1 FrameworkType.python [dupResB, dupResA]).results =
      [dupResB, dupResA] ∧
    mkSummary 2 1 FrameworkType.python [dupResA, dupResB] ≠
      mkSummary 2 1 FrameworkType.python [dupResB, dupResA] := by
  refine ⟨List.Perm.swap dupResB dupResA [], rfl, rfl, ?_⟩
  intro h
  have h2 := congrArg RunSummary.results h
  rw [show (mkSummary 2 1 FrameworkType.python [dupResA, dupResB]).results =
        [dupResA, dupResB] from rfl,
      show (mkSummary 2 1 FrameworkType.python [dupResB, dupResA]).results =
        [dupResB, dupResA] from rfl] at h2
  exact absurd h2 (by decide)

/-- C9 amended: the failure count and the reproduction rate are invariant
under every permutation of the collected attempt results; the whole
summary — including the stored, re-sorted results list — is invariant
whenever the attempt indices are pairwise distinct (with duplicate
indices, stable re-sorting can preserve the permuted order). -/
theorem mkSummary_perm_invariant (runs parallelism : Int) (framework : FrameworkType)
    (l l' : List AttemptResult) (hp : l.Perm l') :
    (mkSummary runs parallelism framework l).failures =
      (mkSummary runs parallelism framework l').failures ∧
    (mkSummary runs parallelism framework l).repro_rate =
      (mkSummary runs parallelism framework l').repro_rate ∧
    ((l.map (fun r => r.attempt)).Nodup →
      mkSummary runs parallelism framework l = mkSummary runs parallelism framework l') := by
  have hf : (l.filter (fun r => !r.passed)).length =
      (l'.filter (fun r => !r.passed)).length :=
    (hp.filter (fun r => !r.passed)).length_eq
  refine ⟨?_, ?_, ?_⟩
  · simpa [mkSummary] using hf
  · simp [mkSummary, hf]
  · intro hn
    have hsort := sortResults_eq_of_perm l l' hp hn
    simp [mkSummary, hf, hsort]

/-- C9 witness: the theorem applied to a two-element list with distinct
attempt indices and its reversal. -/
theorem mkSummary_perm_invariant_witness :
    mkSummary 2 1 FrameworkType.python
        [{ attempt := 1, exit_code := some 1, stdout := "", stderr := "", passed := false },
         { attempt := 0, exit_code := some 0, stdout := "", stderr := "", passed := true }] =
      mkSummary 2 1 FrameworkType.python
        [{ attempt := 0, exit_code := some 0, stdout := "", stderr := "", passed := true },
         { attempt := 1, exit_code := some 1, stdout := "", stderr := "", passed := false }] :=
  (mkSummary_perm_invariant 2 1 FrameworkType.python _ _
    (List.Perm.swap _ _ [])).2.2 (by decide)

/-- C4: for any fixed thresholds, `get_severity` is monotone
non-decreasing in the reproduction rate under the tier order
NONE < LOW < MEDIUM < HIGH < CRITICAL, and it classifies a rate exactly
as the spec's rule "the highest tier whose threshold the rate meets or
exceeds, else NONE" (the top-down `>=` chain critical, high, medium, low
computes precisely that). -/
theorem get_severity_monotone_spec (t : SeverityThresholds) (r r' : ℚ) (h : r ≤ r') :
    severityRank (get_severity t r).1 ≤ severityRank (get_severity t r').1 ∧
    (get_severity t r).1 = specSeverityHighest t r := by
  constructor
  · unfold get_severity
    split_ifs <;> first | decide | linarith
  · unfold get_severity specSeverityHighest tierThresholds
    by_cases hc : r ≥ t.critical <;> by_cases hh : r ≥ t.high <;>
      by_cases hm : r ≥ t.medium <;> by_cases hl : r ≥ t.low <;>
      simp [hc, hh, hm, hl, List.filter, List.foldl, severityRank]

/-- C4 witness: the theorem applied to the default thresholds at rates
0.05 and 0.95. -/
theorem get_severity_monotone_spec_witness :
    severityRank (get_severity ⟨9/10, 1/2, 1/10, 1/100⟩ (5/100)).1 ≤
      severityRank (get_severity ⟨9/10, 1/2, 1/10, 1/100⟩ (95/100)).1 :=
  (get_severity_monotone_spec ⟨9/10, 1/2, 1/10, 1/100⟩ (5/100) (95/100)
    (by norm_num)).1

theorem validateRequest_error_of_invalid (job : RunRequest) (h : requestInvalid job) :
    ∃ e, validateRequest job = .error e := by
  unfold validateRequest
  cases hr : job.repo with
  | none => exact ⟨_, rfl⟩
  | some repo =>
    cases ht : job.test_command with
    | none => exact ⟨_, rfl⟩
    | some tc =>
      dsimp only
      split_ifs with h1 h2 h3 h4 h5
      all_goals try exact ⟨_, rfl⟩
      exfalso
      rcases h with h | h | h | h | h | h | h | h | ⟨rp, hrp, hns⟩
      · rw [hr] at h; cases h
      · rw [hr] at h; injection h with h; exact h1 h
      · rw [ht] at h; cases h
      · rw [ht] at h; injection h with h; exact h2 h
      · exact h3 (Or.inl h)
      · exact h3 (Or.inr h)
      · exact h4 (Or.inl h)
      · exact h4 (Or.inr h)
      · rw [hr] at hrp; injection hrp with hrp; subst hrp
        exact hns h5

/-- C5: every request with a missing/empty repository, missing/empty test
command, runs outside [1,1000], parallelism outside [1,50] or a
repository identifier with no recognized scheme makes the handler raise
before any side effect: the effect trace is empty (no temporary
directory, no subprocess) and the outcome is an error; the errors raised
for the five classes are pairwise distinct values. -/
theorem handler_invalid_fail_closed (job : RunRequest) (w : World)
    (h : requestInvalid job) :
    (handler job w).1 = [] ∧
    (∃ e, (handler job w).2 = Except.error e) ∧
    validateRequest reqNoRepo = .error (.keyError "repo") ∧
    validateRequest reqEmptyRepo =
      .error (.valueError "Repository URL is required") ∧
    validateRequest reqEmptyCmd =
      .error (.valueError "Test command is required") ∧
    validateRequest reqBadRuns =
      .error (.valueError "Runs must be between 1 and 1000") ∧
    validateRequest reqBadPar =
      .error (.valueError "Parallelism must be between 1 and 50") ∧
    validateRequest reqBadScheme =
      .error (.valueError ("Invalid repository URL: " ++ "ftp://r")) ∧
    ([.keyError "repo",
      .valueError "Repository URL is required",
      .valueError "Test command is required",
      .valueError "Runs must be between 1 and 1000",
      .valueError "Parallelism must be between 1 and 50",
      .valueError ("Invalid repository URL: " ++ "ftp://r")] : List HandlerError).Nodup := by
  obtain ⟨e, he⟩ := validateRequest_error_of_invalid job h
  refine ⟨?_, ⟨e, ?_⟩, rfl, rfl, rfl, rfl, rfl, rfl, by decide⟩
  · simp [handler, he]
  · simp [handler, he]

/-- C5 witness: the theorem applied to the empty-repository request. -/
theorem handler_invalid_fail_closed_witness :
    (handler reqEmptyRepo crashWorld).1 = [] :=
  (handler_invalid_fail_closed reqEmptyRepo crashWorld (Or.inr (Or.inl rfl))).1

/-- C6: `detect_framework` checks in priority order: go.mod yields go (and
go is returned only then); an existing but unparseable package.json is
treated exactly as an absent one; a parseable package.json declaring
jest, vitest or mocha (in that priority) among dependencies or
devDependencies yields the corresponding JS tag; otherwise a Python
marker yields python; otherwise unknown. -/
theorem detect_framework_spec (d : DirState) (pkg : PackageJson) :
    (detect_framework d = FrameworkType.go ↔ d.goMod = true) ∧
    (detect_framework { d with packageJson := .unparseable } =
      detect_framework { d with packageJson := .absent }) ∧
    (d.goMod = false → d.packageJson = .parsed pkg →
      (("jest" ∈ pkg.dependencies ++ pkg.devDependencies →
          detect_framework d = FrameworkType.typescriptJest) ∧
       ("jest" ∉ pkg.dependencies ++ pkg.devDependencies →
        "vitest" ∈ pkg.dependencies ++ pkg.devDependencies →
          detect_framework d = FrameworkType.typescriptVitest) ∧
       ("jest" ∉ pkg.dependencies ++ pkg.devDependencies →
        "vitest" ∉ pkg.dependencies ++ pkg.devDependencies →
        "mocha" ∈ pkg.dependencies ++ pkg.devDependencies →
          detect_framework d = FrameworkType.javascriptMocha))) ∧
    (d.goMod = false → noJsMatch d →
      (((d.requirementsTxt || d.pyprojectToml || d.setupPy) = true →
          detect_framework d = FrameworkType.python) ∧
       ((d.requirementsTxt || d.pyprojectToml || d.setupPy) = false →
          detect_framework d = FrameworkType.unknown))) := by
  refine ⟨?_, ?_, ?_, ?_⟩
  · cases hg : d.goMod with
    | true => simp [detect_framework, hg]
    | false =>
      simp only [hg, Bool.false_eq_true, iff_false]
      unfold detect_framework
      rw [hg]
      cases hp : d.packageJson with
      | absent => split_ifs <;> simp_all
      | unparseable => split_ifs <;> simp_all
      | parsed pkg2 =>
        by_cases hj : "jest" ∈ pkg2.dependencies ∨ "jest" ∈ pkg2.devDependencies <;>
          by_cases hv : "vitest" ∈ pkg2.dependencies ∨ "vitest" ∈ pkg2.devDependencies <;>
          by_cases hm : "mocha" ∈ pkg2.dependencies ∨ "mocha" ∈ pkg2.devDependencies <;>
          simp [hj, hv, hm] <;> split_ifs <;> simp_all
  · unfold detect_framework
    rfl
  · intro hg hp
    unfold detect_framework
    rw [hg, hp]
    refine ⟨fun hj => ?_, fun hj hv => ?_, fun hj hv hm => ?_⟩
    · simp [hj]
    · simp [hj, hv]
    · simp [hj, hv, hm]
  · intro hg hjs
    unfold detect_framework
    rw [hg]
    cases hp : d.packageJson with
    | absent => exact ⟨fun hpy => by simp [hpy], fun hpy => by simp [hpy]⟩
    | unparseable => exact ⟨fun hpy => by simp [hpy], fun hpy => by simp [hpy]⟩
    | parsed pkg2 =>
      obtain ⟨hj, hv, hm⟩ := hjs pkg2 hp
      exact ⟨fun hpy => by simp [hj, hv, hm, hpy], fun hpy => by simp [hj, hv, hm, hpy]⟩

/-- C6 witness: the theorem applied to a directory containing only go.mod. -/
theorem detect_framework_spec_witness :
    detect_framework goOnlyDir = FrameworkType.go :=
  (detect_framework_spec goOnlyDir { dependencies := [], devDependencies := [] }).1.mpr rfl

end FlakyDetector
